import Mathlib

/-!
Verification of the Telegram chat-bot pipeline (webhook intake, queue worker,
reply policy, style profiler, admin commands) against its design spec.

The Python sources under `app/` are shallowly embedded below: pure helpers
become Lean functions; the worker's side effects (storage writes, Telegram
sends) become an explicit effect trace, with the storage reads, the random
draw, the clock and the fallible external calls supplied by an `Env` record;
a Python exception is an `Except`/escape flag.  Python truthiness on optional
values is made explicit (`truthyOptInt`, `truthyOptStr`).  Machine floats of
the source (reply chance, temperature, style statistics) are modelled as
exact rationals; timestamps as integer epoch seconds.
-/

namespace App

/-- Python truthiness of an `Optional[int]`: `None` and `0` are falsy. -/
def truthyOptInt : Option Int → Bool
  | none => false
  | some n => n != 0

/-- Python truthiness of an `Optional[str]`: `None` and `""` are falsy. -/
def truthyOptStr : Option String → Bool
  | none => false
  | some s => s != ""

/-- Python `needle in hay` on strings: `needle` occurs contiguously in `hay`. -/
def strContains (hay needle : String) : Bool :=
  (List.range (hay.toList.length + 1)).any
    (fun i => needle.toList.isPrefixOf (hay.toList.drop i))

/-- Python `str.strip()` (whitespace at both ends removed). -/
def pyStrip (s : String) : String :=
  String.mk (((s.toList.dropWhile (fun c => c.isWhitespace)).reverse.dropWhile
    (fun c => c.isWhitespace)).reverse)

/-- Python `str.lower()`, character-wise. -/
def pyLower (s : String) : String := String.mk (s.toList.map Char.toLower)

/-- Helper for `pyTitle`: the boolean records whether the previous character
was alphabetic (Python title-cases the first letter of each alpha run). -/
def pyTitleGo : List Char → Bool → List Char
  | [], _ => []
  | c :: rest, prevAlpha =>
    (if c.isAlpha then (if prevAlpha then c.toLower else c.toUpper) else c)
      :: pyTitleGo rest c.isAlpha

/-- Python `str.title()` restricted to ASCII casing, as the source applies it
to the fixed header name `x-cloud-trace-context`. -/
def pyTitle (s : String) : String := String.mk (pyTitleGo s.toList false)

/-- Digit-run value, base 10. -/
def digitsVal (l : List Char) : Nat :=
  l.foldl (fun a c => a * 10 + (c.toNat - 48)) 0

/-- All-digit, non-empty run. -/
def parseDigits (l : List Char) : Option Nat :=
  if l ≠ [] && l.all Char.isDigit then some (digitsVal l) else none

/-- `app/message_processor.py` `_parse_int`: Python `int(value)` on a string —
optional surrounding whitespace, optional sign, a non-empty digit run. -/
def _parse_int (s : String) : Option Int :=
  match (pyStrip s).toList with
  | '+' :: rest => (parseDigits rest).map Int.ofNat
  | '-' :: rest => (parseDigits rest).map (fun n => -(n : Int))
  | t => (parseDigits t).map Int.ofNat

/-- Unsigned decimal literal `digits[.digits]` with at least one digit,
valued as an exact rational. -/
def parseUnsignedDec (l : List Char) : Option ℚ :=
  let ip := l.takeWhile Char.isDigit
  let rest := l.dropWhile Char.isDigit
  match rest with
  | [] => if ip ≠ [] then some ((digitsVal ip : ℚ)) else none
  | '.' :: fp =>
    if fp.all Char.isDigit && (ip ≠ [] || fp ≠ []) then
      some ((digitsVal ip : ℚ) + (digitsVal fp : ℚ) / ((10 : ℚ) ^ fp.length))
    else none
  | _ => none

/-- `app/message_processor.py` `_parse_float`: Python `float(value)` on a
string, modelled on its decimal-literal fragment (optional whitespace, sign,
`digits[.digits]`); the exponent/`inf`/`nan` spellings Python also accepts
are outside the model. -/
def _parse_float (s : String) : Option ℚ :=
  match (pyStrip s).toList with
  | '+' :: rest => parseUnsignedDec rest
  | '-' :: rest => (parseUnsignedDec rest).map Neg.neg
  | t => parseUnsignedDec t

/-! ## Data model (`app/models.py`) -/

/-- `app/models.py` `User`. `id` is optional: `_parse_update` fills it with
`from_user.get("id")`. -/
structure User where
  id : Option Int
  username : Option String
  first_name : Option String
  is_bot : Bool
deriving Repr, DecidableEq

/-- `app/models.py` `MessageEntity`. -/
structure MessageEntity where
  entity_type : Option String
  offset : Option Int
  length : Option Int
deriving Repr, DecidableEq

/-- `app/models.py` `Message`; `date` as epoch seconds. -/
structure Message where
  message_id : Int
  sender : User
  text : Option String
  date : Int
  entities : List MessageEntity
deriving Repr, DecidableEq

/-- `app/models.py` `Update`. -/
structure Update where
  update_id : Int
  message : Message
deriving Repr, DecidableEq

/-- `app/models.py` `StyleProfile`.  `emoji_rate` is the source's
`emoji_ratio` field (renamed); lengths and the ratio are exact rationals. -/
structure StyleProfile where
  average_length : ℚ
  emoji_rate : ℚ
  common_words : List String
  topics : List String
deriving Repr, DecidableEq

/-! ## Raw update payloads (the JSON dicts the worker receives) -/

/-- The `message["from"]` dict, with the fields the code reads. -/
structure FromPayload where
  id : Option Int
  username : Option String
  first_name : Option String
  is_bot : Bool
deriving Repr, DecidableEq

/-- The `message["chat"]` dict, with the fields the code reads. -/
structure ChatPayload where
  id : Option Int
  chat_type : Option String
deriving Repr, DecidableEq

/-- The `message` dict of an update payload.  `fromUser = none` models the
`from` key absent (or an empty dict, which Python treats identically via
`or {}` / falsiness); likewise `chat`. -/
structure MessagePayload where
  message_id : Int
  date : Int
  text : Option String
  fromUser : Option FromPayload
  chat : Option ChatPayload
  entities : List MessageEntity
deriving Repr, DecidableEq

/-- An update payload as the worker's `process_update` requires it
(`update["message"]` present, with `message_id` and `date`). -/
structure UpdatePayload where
  update_id : Int
  message : MessagePayload
deriving Repr, DecidableEq

/-- An update payload as the webhook sees it: `message` may be absent. -/
structure RawUpdate where
  update_id : Int
  message : Option MessagePayload
deriving Repr, DecidableEq

/-! ## Configuration -/

/-- `app/config.py` `Config`, restricted to the fields the embedded code
reads.  `admin_user_id` is read by `webhook_handler.handle_update` and
`message_processor._is_admin_dm` but is not declared on the `Config`
dataclass in `config.py`; it is included here following the spec's
configuration list (§6, "admin user identity"). -/
structure Config where
  ingest_chat_id : Int
  reply_chat_id : Int
  webhook_secret : String
  bot_username : Option String
  bot_user_id : Option Int
  admin_user_id : Option Int
deriving Repr, DecidableEq

/-! ## Compiled defaults (`app/constants.py`)

`app/constants.py` is imported by `message_processor.py` and `ai_adapter.py`
but is not among the repository's files; per the spec (§3 RuntimeConfig) each
default only has to lie in its field's admissible range.  Representative
in-range values are fixed below; no theorem depends on the particular
numbers. -/

/-- Modelled from the spec: compiled default for `reply_chance` (in [0,1]);
`app/constants.py` is missing from the sources. -/
def DEFAULT_REPLY_CHANCE : ℚ := 1/10

/-- Modelled from the spec: compiled default for `cooldown_seconds` (≥ 0);
`app/constants.py` is missing from the sources. -/
def DEFAULT_COOLDOWN_SECONDS : Int := 300

/-- Modelled from the spec: compiled default for `context_messages` (> 0);
`app/constants.py` is missing from the sources. -/
def DEFAULT_CONTEXT_MESSAGES : Int := 10

/-- Modelled from the spec: compiled default for `history_limit` (> 0);
`app/constants.py` is missing from the sources. -/
def DEFAULT_HISTORY_LIMIT : Int := 50

/-- Modelled from the spec: compiled default for `max_reply_sentences` (≥ 0);
`app/constants.py` is missing from the sources. -/
def DEFAULT_MAX_REPLY_SENTENCES : Int := 2

/-- Modelled from the spec: compiled default for `model_temperature`
(in [0,2]); `app/constants.py` is missing from the sources. -/
def DEFAULT_MODEL_TEMPERATURE : ℚ := 9/10

/-- Modelled from the spec: compiled default for `max_tokens` (> 0);
`app/constants.py` is missing from the sources. -/
def DEFAULT_MAX_TOKENS : Int := 200

/-- Modelled from the spec: compiled default for `system_prompt`;
`app/constants.py` is missing from the sources. -/
def DEFAULT_SYSTEM_PROMPT : String := "default system prompt"

/-! ## Runtime config values -/

/-- A JSON-ish value stored in the runtime-config document: the admin
handler writes ints, floats (here exact rationals) and strings. -/
inductive RVal where
  | int (n : Int)
  | rat (q : ℚ)
  | str (s : String)
deriving Repr, DecidableEq

/-- The runtime-config dict, insertion-ordered like a Python dict. -/
abbrev RC := List (String × RVal)

/-- Python `dict.get(k)`. -/
def rcGet (rc : RC) (k : String) : Option RVal :=
  (rc.find? (fun p => p.1 == k)).map (·.2)

/-- Python `dict.get(k, dflt)`. -/
def rcGetD (rc : RC) (k : String) (dflt : RVal) : RVal :=
  (rcGet rc k).getD dflt

/-- Python `dict.update({k: v})`: replace in place if present, else append. -/
def rcSet (rc : RC) (k : String) (v : RVal) : RC :=
  if rc.any (fun p => p.1 == k) then
    rc.map (fun p => if p.1 == k then (k, v) else p)
  else rc ++ [(k, v)]

/-- Numeric coercion of a stored value, as Python `float(...)` in
`process_update`; the worker only stores numbers under numeric keys (the
admin validation enforces it), so the string case never arises there and
falls back to the default. -/
def rcGetRat (rc : RC) (k : String) (dflt : ℚ) : ℚ :=
  match rcGet rc k with
  | some (RVal.int n) => (n : ℚ)
  | some (RVal.rat q) => q
  | _ => dflt

/-- Integer coercion of a stored value, as Python `int(...)` in
`process_update` (truncation toward zero on a float). -/
def rcGetInt (rc : RC) (k : String) (dflt : Int) : Int :=
  match rcGet rc k with
  | some (RVal.int n) => n
  | some (RVal.rat q) => q.num.tdiv (q.den : Int)
  | _ => dflt

/-- Plain rendering of a stored value for the `get_config` dump; Python's
numeric `str(...)` formatting is abstracted to Lean's. -/
def rvalText : RVal → String
  | RVal.int n => toString n
  | RVal.rat q => toString q
  | RVal.str s => s

/-! ## Stored chat history (`app/storage.py` document shapes) -/

/-- One stored message document, as `save_message` writes it and
`get_latest_messages` returns it; the iso-format `date` string is modelled
already parsed to epoch seconds (`process_update` re-parses it with
`datetime.fromisoformat`). -/
structure StoredMessage where
  message_id : Option Int
  text : Option String
  date : Int
  user_id : Option Int
  username : Option String
deriving Repr, DecidableEq

/-! ## Trace propagation (`app/trace.py`) -/

/-- `app/trace.py` `TRACE_HEADER`. -/
def TRACE_HEADER : String := "x-cloud-trace-context"

/-- Exact-key lookup in a header mapping (a plain dict's `.get`). -/
def headersGet (headers : List (String × String)) (k : String) : Option String :=
  (headers.find? (fun p => p.1 == k)).map (·.2)

/-- Python `a or b` on two optional strings: `a` unless it is falsy
(`None` or `""`). -/
def pyOrStr : Option String → Option String → Option String
  | some s, b => if s ≠ "" then some s else b
  | none, b => b

/-- `app/trace.py` `extract_trace_id`: look the header up under its
lower-case name, falling back to `TRACE_HEADER.title()`; keep the segment
before the first `/`, stripped; empty results become `none`. -/
def extract_trace_id (headers : List (String × String)) : Option String :=
  match pyOrStr (headersGet headers TRACE_HEADER)
      (headersGet headers (pyTitle TRACE_HEADER)) with
  | none => none
  | some h =>
    if h = "" then none
    else
      let trace_id := pyStrip (String.mk (h.toList.takeWhile (fun c => c ≠ '/')))
      if trace_id = "" then none else some trace_id

/-! ## Style profiler (`app/message_processor.py` `_build_style_profile`) -/

/-- A character of the emoji block the source's regex matches
(`[\U0001F300-\U0001FAFF]`). -/
def isEmojiChar (c : Char) : Bool :=
  0x1F300 ≤ c.toNat && c.toNat ≤ 0x1FAFF

/-- A regex word character (`\w`), on the ASCII fragment: alphanumeric or
underscore. -/
def isWordChar (c : Char) : Bool := c.isAlphanum || c == '_'

/-- `re.findall(r"\b\w+\b", s)`: the maximal word-character runs of `s`. -/
def tokenizeWords (s : String) : List String :=
  ((s.toList.splitOnP (fun c => !isWordChar c)).map String.mk).filter
    (fun w => w ≠ "")

/-- The list comprehension of `_build_style_profile`:
`[m.get("text", "") for m in messages if m.get("text")]`. -/
def nonEmptyTexts (messages : List StoredMessage) : List String :=
  messages.filterMap (fun m =>
    match m.text with
    | some t => if t ≠ "" then some t else none
    | none => none)

/-- `re.findall(r"\b\w+\b", " ".join(texts).lower())`. -/
def styleTokens (texts : List String) : List String :=
  tokenizeWords (pyLower (String.intercalate " " texts))

/-- `sorted(set(words), key=words.count, reverse=True)[:5]`: the distinct
tokens ordered by descending frequency (set iteration order is unspecified
in the source; the embedding dedups and sorts stably), truncated to 5. -/
def topCommonWords (words : List String) : List String :=
  (List.insertionSort (fun a b => words.count b ≤ words.count a)
    words.dedup).take 5

/-- `app/message_processor.py` `_build_style_profile`. -/
def _build_style_profile (messages : List StoredMessage) : StyleProfile :=
  let texts := nonEmptyTexts messages
  if texts = [] then
    { average_length := 0, emoji_rate := 0, common_words := [], topics := [] }
  else
    let total_length := (texts.map String.length).sum
    let average_length : ℚ := (total_length : ℚ) / (texts.length : ℚ)
    let emoji_count := (texts.map (fun t => (t.toList.filter isEmojiChar).length)).sum
    let emoji_rate : ℚ := (emoji_count : ℚ) / ((max total_length 1 : ℕ) : ℚ)
    let words := styleTokens texts
    { average_length := average_length
      emoji_rate := emoji_rate
      common_words := topCommonWords words
      topics := [] }

/-! ## Worker side effects and environment -/

/-- `app/models.py` `AIContext`; `metadata` as the key-value list
`process_update` builds. -/
structure AIContext where
  chat_id : Int
  recent_messages : List Message
  style_profile : StyleProfile
  metadata : List (String × RVal)
deriving Repr, DecidableEq

/-- An externally visible side effect of the worker: a storage write or a
Telegram send.  Reads are not effects; they are answered by `Env`. -/
inductive Effect where
  | saveMessage (chat_id : Int) (message_id : Int)
  | saveReply (chat_id : Int) (message_id : Int) (text : String)
  | markProcessed (update_id : Int)
  | sendMessage (chat_id : Int) (text : String)
  | saveRuntimeConfig (rc : RC)
  | clearRuntimeConfig
deriving Repr, DecidableEq

/-- The worker's environment: results of storage reads, the clock, the
random draw, and whether each fallible external call succeeds.
`get_latest_messages` is a function of the limit it is called with;
`generate_reply_result` is the text the generation capability returns, or
`Except.error` when it raises (a non-rate-limit HTTP failure);
`send_ok = false` makes every `_send_telegram_reply` raise;
`save_reply_ok = false` makes `save_reply` raise. -/
structure Env where
  is_update_processed : Bool
  runtime_config : RC
  get_last_reply_time : Except Unit (Option Int)
  get_latest_messages : Int → Except Unit (List StoredMessage)
  now : Int
  rnd : ℚ
  generate_reply_result : AIContext → Except Unit String
  send_ok : Bool
  save_reply_ok : Bool

/-! ## Parsing and the reply policy (`app/message_processor.py`) -/

/-- `app/message_processor.py` `_parse_update`: build the typed `Update`
from the raw payload (`from` defaulting to an empty dict). -/
def _parse_update (u : UpdatePayload) : Update :=
  let from_user := u.message.fromUser.getD
    { id := none, username := none, first_name := none, is_bot := false }
  { update_id := u.update_id
    message :=
      { message_id := u.message.message_id
        sender :=
          { id := from_user.id
            username := from_user.username
            first_name := from_user.first_name
            is_bot := from_user.is_bot }
        text := u.message.text
        date := u.message.date
        entities := u.message.entities } }

/-- `app/message_processor.py` `_should_reply`.  The cooldown read
(`get_last_reply_time`) is a storage call and may raise, hence the
`Except`. -/
def _should_reply (update : Update) (config : Config) (reply_chance : ℚ)
    (cooldown_seconds : Int) (env : Env) : Except Unit Bool :=
  if update.message.sender.is_bot then Except.ok false
  else if update.message.sender.id = none then Except.ok false
  else if truthyOptInt config.bot_user_id
      && update.message.sender.id == config.bot_user_id then Except.ok false
  else
    let text := update.message.text.getD ""
    if truthyOptStr config.bot_username
        && strContains text ("@" ++ config.bot_username.getD "") then Except.ok true
    else if strContains text "?" then Except.ok true
    else
      match env.get_last_reply_time with
      | Except.error e => Except.error e
      | Except.ok last_reply_time =>
        match last_reply_time with
        | some t =>
          if env.now - t < cooldown_seconds then Except.ok false
          else Except.ok (decide (env.rnd < reply_chance))
        | none => Except.ok (decide (env.rnd < reply_chance))

/-- First-whitespace split of a stripped string, as Python
`s.split(maxsplit=1)`: the leading word and the remainder with its leading
whitespace removed. -/
def firstWordSplit (s : String) : String × String :=
  let cs := s.toList
  let first := cs.takeWhile (fun c => !c.isWhitespace)
  let rest := (cs.dropWhile (fun c => !c.isWhitespace)).dropWhile
    (fun c => c.isWhitespace)
  (String.mk first, String.mk rest)

/-- `app/message_processor.py` `_extract_command`: parse
`/command[@botname] [args]`; a mismatched `@botname` (when a bot username is
configured) rejects the command. -/
def _extract_command (text : String) (bot_username : Option String) :
    Option (String × String) :=
  if text == "" || !("/".toList.isPrefixOf text.toList) then none
  else
    let (first, args) := firstWordSplit (pyStrip text)
    let command_part := String.mk (first.toList.drop 1)
    if command_part = "" then none
    else if strContains command_part "@" then
      let command := String.mk (command_part.toList.takeWhile (fun c => c ≠ '@'))
      let username := String.mk
        ((command_part.toList.dropWhile (fun c => c ≠ '@')).drop 1)
      if truthyOptStr bot_username
          && pyLower username ≠ pyLower (bot_username.getD "") then none
      else some (pyLower command, args)
    else some (pyLower command_part, args)

/-- `app/message_processor.py` `_is_admin_dm`. -/
def _is_admin_dm (message_payload : MessagePayload) (config : Config)
    (sender_id : Option Int) : Bool :=
  if !truthyOptInt config.admin_user_id then false
  else if sender_id = none || sender_id ≠ config.admin_user_id then false
  else
    match message_payload.chat with
    | some chat => chat.chat_type == some "private"
    | none => false

/-! ## Admin command handler (`app/message_processor.py`) -/

/-- The inner `reply` closure of `_handle_admin_command`: send to the
payload's chat id when it is truthy, else only log; a raising send yields
`Except.error` carrying the effects performed before the raise. -/
def adminReply (message_payload : MessagePayload) (env : Env)
    (text_out : String) : Except (List Effect) (List Effect) :=
  let chat_id := message_payload.chat.bind (fun c => c.id)
  if truthyOptInt chat_id then
    if env.send_ok then Except.ok [Effect.sendMessage (chat_id.getD 0) text_out]
    else Except.error []
  else Except.ok []

/-- The `/help` (and `/commands`) reply text of `_handle_admin_command`. -/
def helpText : String :=
  "Commands: /get_config, /reset_config, /set_reply_chance <0-1>, " ++
  "/set_cooldown <seconds>, /set_context_messages <int>, /set_history_limit <int>, " ++
  "/set_max_reply_sentences <int>, /set_model_temperature <0-2>, /set_max_tokens <int>, " ++
  "/set_system_prompt <text>"

/-- The `/get_config` dump: each effective value is the runtime override
when present, else the compiled default, in the source's key order. -/
def effectiveConfigText (runtime_config : RC) : String :=
  "Current config:\n" ++ String.intercalate "\n"
    [ "reply_chance=" ++
        rvalText (rcGetD runtime_config "reply_chance" (RVal.rat DEFAULT_REPLY_CHANCE)),
      "cooldown_seconds=" ++
        rvalText (rcGetD runtime_config "cooldown_seconds" (RVal.int DEFAULT_COOLDOWN_SECONDS)),
      "context_messages=" ++
        rvalText (rcGetD runtime_config "context_messages" (RVal.int DEFAULT_CONTEXT_MESSAGES)),
      "history_limit=" ++
        rvalText (rcGetD runtime_config "history_limit" (RVal.int DEFAULT_HISTORY_LIMIT)),
      "max_reply_sentences=" ++
        rvalText (rcGetD runtime_config "max_reply_sentences" (RVal.int DEFAULT_MAX_REPLY_SENTENCES)),
      "model_temperature=" ++
        rvalText (rcGetD runtime_config "model_temperature" (RVal.rat DEFAULT_MODEL_TEMPERATURE)),
      "max_tokens=" ++
        rvalText (rcGetD runtime_config "max_tokens" (RVal.int DEFAULT_MAX_TOKENS)),
      "system_prompt=" ++
        rvalText (rcGetD runtime_config "system_prompt" (RVal.str DEFAULT_SYSTEM_PROMPT)) ]

/-- Outcome of the `set_<field>` command chain of `_handle_admin_command`:
a field-specific validation failure, a validated single-key update, or a
command outside the chain. -/
inductive SetOutcome where
  | invalid (msg : String)
  | valid (key : String) (v : RVal)
  | unknown
deriving Repr, DecidableEq

/-- The `set_<field>` `elif` chain of `_handle_admin_command` (lines
220-270): each field parses its argument and checks its own range; failure
carries that field's validation message. -/
def setCommandOutcome (command : String) (args : String) : SetOutcome :=
  if command == "set_reply_chance" then
    match _parse_float args with
    | some v =>
      if 0 ≤ v ∧ v ≤ 1 then SetOutcome.valid "reply_chance" (RVal.rat v)
      else SetOutcome.invalid "Invalid reply_chance. Expected a number between 0 and 1."
    | none => SetOutcome.invalid "Invalid reply_chance. Expected a number between 0 and 1."
  else if command == "set_cooldown" then
    match _parse_int args with
    | some v =>
      if 0 ≤ v then SetOutcome.valid "cooldown_seconds" (RVal.int v)
      else SetOutcome.invalid "Invalid cooldown. Expected a non-negative integer."
    | none => SetOutcome.invalid "Invalid cooldown. Expected a non-negative integer."
  else if command == "set_context_messages" then
    match _parse_int args with
    | some v =>
      if 0 < v then SetOutcome.valid "context_messages" (RVal.int v)
      else SetOutcome.invalid "Invalid context_messages. Expected a positive integer."
    | none => SetOutcome.invalid "Invalid context_messages. Expected a positive integer."
  else if command == "set_history_limit" then
    match _parse_int args with
    | some v =>
      if 0 < v then SetOutcome.valid "history_limit" (RVal.int v)
      else SetOutcome.invalid "Invalid history_limit. Expected a positive integer."
    | none => SetOutcome.invalid "Invalid history_limit. Expected a positive integer."
  else if command == "set_max_reply_sentences" then
    match _parse_int args with
    | some v =>
      if 0 ≤ v then SetOutcome.valid "max_reply_sentences" (RVal.int v)
      else SetOutcome.invalid "Invalid max_reply_sentences. Expected 0 or a positive integer."
    | none => SetOutcome.invalid "Invalid max_reply_sentences. Expected 0 or a positive integer."
  else if command == "set_model_temperature" then
    match _parse_float args with
    | some v =>
      if 0 ≤ v ∧ v ≤ 2 then SetOutcome.valid "model_temperature" (RVal.rat v)
      else SetOutcome.invalid "Invalid model_temperature. Expected a number between 0 and 2."
    | none => SetOutcome.invalid "Invalid model_temperature. Expected a number between 0 and 2."
  else if command == "set_max_tokens" then
    match _parse_int args with
    | some v =>
      if 0 < v then SetOutcome.valid "max_tokens" (RVal.int v)
      else SetOutcome.invalid "Invalid max_tokens. Expected a positive integer."
    | none => SetOutcome.invalid "Invalid max_tokens. Expected a positive integer."
  else if command == "set_system_prompt" then
    if args ≠ "" then SetOutcome.valid "system_prompt" (RVal.str args)
    else SetOutcome.invalid "Invalid system_prompt. Provide the prompt text after the command."
  else SetOutcome.unknown

/-- `app/message_processor.py` `_handle_admin_command`.  Result: the
effects performed and the handler's boolean, or `Except.error` with the
effects before the raise when a send raises.  On a validated `set` command,
the single key is merged over the existing runtime config (`dict.update`)
and the merged mapping is saved before the confirmation is sent. -/
def _handle_admin_command (update : Update) (message_payload : MessagePayload)
    (config : Config) (runtime_config : RC) (env : Env) :
    Except (List Effect) (List Effect × Bool) :=
  let text := update.message.text.getD ""
  match _extract_command text config.bot_username with
  | none => Except.ok ([], false)
  | some (command, args0) =>
    let args := pyStrip args0
    if command == "help" || command == "commands" then
      (adminReply message_payload env helpText).map (fun efs => (efs, true))
    else if command == "get_config" then
      (adminReply message_payload env (effectiveConfigText runtime_config)).map
        (fun efs => (efs, true))
    else if command == "reset_config" then
      match adminReply message_payload env "Runtime config cleared." with
      | Except.ok efs => Except.ok (Effect.clearRuntimeConfig :: efs, true)
      | Except.error efs => Except.error (Effect.clearRuntimeConfig :: efs)
    else
      match setCommandOutcome command args with
      | SetOutcome.invalid msg =>
        (adminReply message_payload env msg).map (fun efs => (efs, true))
      | SetOutcome.unknown =>
        (adminReply message_payload env
          "Unknown command. Use /help for a list of commands.").map
          (fun efs => (efs, true))
      | SetOutcome.valid key v =>
        let merged := rcSet runtime_config key v
        match adminReply message_payload env "Updated runtime config." with
        | Except.ok efs => Except.ok (Effect.saveRuntimeConfig merged :: efs, true)
        | Except.error efs => Except.error (Effect.saveRuntimeConfig merged :: efs)

/-! ## Generation context and the OpenAI payload (`app/ai_adapter.py`) -/

/-- The `Message` rebuilt from a stored history document in
`process_update` (lines 344-357). -/
def storedToMessage (m : StoredMessage) : Message :=
  { message_id := m.message_id.getD 0
    sender := { id := m.user_id, username := m.username,
                first_name := none, is_bot := false }
    text := m.text
    date := m.date
    entities := [] }

/-- The `AIContext` `process_update` assembles (lines 344-373): the most
recent `context_messages` fetched messages, reversed to oldest-first, the
style profile of the whole fetched history, and the runtime-configured
generation parameters as metadata. -/
def build_ai_context (config : Config) (runtime_config : RC)
    (history : List StoredMessage) : AIContext :=
  let context_messages := rcGetInt runtime_config "context_messages"
    DEFAULT_CONTEXT_MESSAGES
  let recent_messages := (history.take context_messages.toNat).map storedToMessage
  { chat_id := config.ingest_chat_id
    recent_messages := recent_messages.reverse
    style_profile := _build_style_profile history
    metadata :=
      [ ("max_reply_sentences",
          rcGetD runtime_config "max_reply_sentences" (RVal.int DEFAULT_MAX_REPLY_SENTENCES)),
        ("model_temperature",
          rcGetD runtime_config "model_temperature" (RVal.rat DEFAULT_MODEL_TEMPERATURE)),
        ("max_tokens",
          rcGetD runtime_config "max_tokens" (RVal.int DEFAULT_MAX_TOKENS)),
        ("system_prompt",
          rcGetD runtime_config "system_prompt" (RVal.str DEFAULT_SYSTEM_PROMPT)) ] }

/-- `app/ai_adapter.py` `_style_guidance`. -/
def _style_guidance (context : AIContext) : String :=
  let profile := context.style_profile
  let hints : List String :=
    (if profile.common_words ≠ [] then
      ["Common slang/words: " ++ String.intercalate ", " profile.common_words]
    else [])
    ++ (if profile.average_length ≤ 40 then ["Keep replies short and punchy."]
        else if 120 ≤ profile.average_length then
          ["Longer, more detailed replies are acceptable."]
        else [])
    ++ (if 1/50 ≤ profile.emoji_rate then
          ["Use emojis occasionally if it feels natural."]
        else if profile.emoji_rate ≤ 1/200 then
          ["Avoid emojis unless the user uses them first."]
        else [])
  if hints = [] then "" else "Style notes: " ++ String.intercalate " " hints

/-- `app/ai_adapter.py` `_build_messages`: the system turn (a hardcoded
prompt citing the compiled `DEFAULT_MAX_REPLY_SENTENCES`, plus style hints)
followed by one user turn per non-empty recent message. -/
def _build_messages (context : AIContext) : List (String × String) :=
  let style_hint := _style_guidance context
  let base :=
    "You are a friendly participant in a Telegram group chat. " ++
    "Mimic the group tone and slang. " ++
    "Keep replies to " ++ toString DEFAULT_MAX_REPLY_SENTENCES ++
    " sentences or fewer. " ++
    "Do not mention being an AI or a bot."
  let system_prompt := if style_hint ≠ "" then base ++ " " ++ style_hint else base
  ("system", system_prompt) ::
    context.recent_messages.filterMap (fun msg =>
      match msg.text with
      | some t => if t ≠ "" then some ("user", t) else none
      | none => none)

/-- The generation request body, as far as the embedding needs it. -/
structure GenPayload where
  temperature : ℚ
  max_tokens : Int
  messages : List (String × String)
deriving Repr, DecidableEq

/-- The POST body `app/ai_adapter.py` `generate_reply` builds (lines
77-83): `temperature` and `max_tokens` are the compiled defaults and the
messages come from `_build_messages`; `context.metadata` is never read. -/
def openai_payload (context : AIContext) : GenPayload :=
  { temperature := DEFAULT_MODEL_TEMPERATURE
    max_tokens := DEFAULT_MAX_TOKENS
    messages := _build_messages context }

/-! ## The worker's per-update handler (`app/message_processor.py`
`process_update`)

The result is the effect trace plus an escape flag: `true` means a Python
exception left `process_update` (and the effects listed are those performed
before the raise). -/

/-- `app/message_processor.py` `process_update`.  Control flow mirrors the
source: dedup check first; the admin-DM branch runs the command handler
under a broad `except` and always marks processed; otherwise the message is
saved, the reply policy is evaluated (its storage read may raise —
uncaught), history is fetched (may raise — uncaught), and only the
generation / dispatch / reply-recording block sits inside `try … finally
mark_update_processed`. -/
def process_update (u : UpdatePayload) (config : Config) (env : Env) :
    List Effect × Bool :=
  let parsed := _parse_update u
  let message_payload := u.message
  let runtime_config := env.runtime_config
  if env.is_update_processed then ([], false)
  else if _is_admin_dm message_payload config parsed.message.sender.id then
    match _handle_admin_command parsed message_payload config runtime_config env with
    | Except.ok (efs, _handled) =>
      (efs ++ [Effect.markProcessed parsed.update_id], false)
    | Except.error efs =>
      (efs ++ [Effect.markProcessed parsed.update_id], false)
  else
    let efs0 := [Effect.saveMessage config.ingest_chat_id parsed.message.message_id]
    let history_limit := rcGetInt runtime_config "history_limit" DEFAULT_HISTORY_LIMIT
    let reply_chance := rcGetRat runtime_config "reply_chance" DEFAULT_REPLY_CHANCE
    let cooldown_seconds := rcGetInt runtime_config "cooldown_seconds"
      DEFAULT_COOLDOWN_SECONDS
    match _should_reply parsed config reply_chance cooldown_seconds env with
    | Except.error _ => (efs0, true)
    | Except.ok false => (efs0 ++ [Effect.markProcessed parsed.update_id], false)
    | Except.ok true =>
      match env.get_latest_messages history_limit with
      | Except.error _ => (efs0, true)
      | Except.ok history =>
        let ai_context := build_ai_context config runtime_config history
        match env.generate_reply_result ai_context with
        | Except.error _ => (efs0 ++ [Effect.markProcessed parsed.update_id], false)
        | Except.ok reply =>
          if reply ≠ "" then
            if env.send_ok then
              if env.save_reply_ok then
                (efs0 ++ [Effect.sendMessage config.reply_chat_id reply,
                  Effect.saveReply config.reply_chat_id parsed.message.message_id reply,
                  Effect.markProcessed parsed.update_id], false)
              else
                (efs0 ++ [Effect.sendMessage config.reply_chat_id reply,
                  Effect.markProcessed parsed.update_id], false)
            else (efs0 ++ [Effect.markProcessed parsed.update_id], false)
          else (efs0 ++ [Effect.markProcessed parsed.update_id], false)

/-! ## Webhook admission (`app/webhook_handler.py`) -/

/-- Result of `handle_update`: the string it returns. -/
inductive AdmissionResult where
  | ignored
  | published
deriving Repr, DecidableEq

/-- `app/webhook_handler.py` `handle_update`: the admission filter.  The
bot/self checks read through `message.get("from") or {}` (absent dict gives
falsy fields); the emptiness rejection comes after them, as in the
source. -/
def handle_update (u : RawUpdate) (config : Config) : AdmissionResult :=
  match u.message with
  | none => AdmissionResult.ignored
  | some message =>
    let from_user := message.fromUser
    if (from_user.map (fun f => f.is_bot)).getD false then AdmissionResult.ignored
    else if truthyOptInt config.bot_user_id
        && (from_user.bind (fun f => f.id)) == config.bot_user_id then
      AdmissionResult.ignored
    else if from_user = none then AdmissionResult.ignored
    else
      let chat_id := message.chat.bind (fun c => c.id)
      let is_admin_dm := truthyOptInt config.admin_user_id
        && ((message.chat.bind (fun c => c.chat_type)) == some "private")
        && ((from_user.bind (fun f => f.id)) == config.admin_user_id)
      if chat_id ≠ some config.ingest_chat_id && !is_admin_dm then
        AdmissionResult.ignored
      else AdmissionResult.published

/-! ## HTTP endpoints (`app/main.py`, `app/worker.py`) -/

/-- A parsed JSON document, as `request.get_json(silent=True)` yields it. -/
inductive Json where
  | null
  | bool (b : Bool)
  | num (q : ℚ)
  | str (s : String)
  | arr (elems : List Json)
  | obj (fields : List (String × Json))
deriving Repr

/-- Python truthiness of a parsed JSON value: `None`, `False`, `0`, `""`,
`[]` and `{}` are falsy. -/
def Json.truthy : Json → Bool
  | Json.null => false
  | Json.bool b => b
  | Json.num q => q != 0
  | Json.str s => s != ""
  | Json.arr elems => !elems.isEmpty
  | Json.obj fields => !fields.isEmpty

/-- `app/main.py` `telegram_webhook`: secret check, then the falsy-body
rejection, then the admission filter (which, with trace extraction and the
queue publish, is abstracted as the fallible `handler`).  Result: the
`(status, body-tag)` response and whether the handler was invoked. -/
def telegram_webhook (config : Config) (secret_header : String)
    (body : Option Json) (handler : Json → Except String AdmissionResult) :
    (Nat × String) × Bool :=
  if secret_header ≠ config.webhook_secret then ((401, "unauthorized"), false)
  else
    match body with
    | none => ((400, "invalid_json"), false)
    | some update =>
      if !update.truthy then ((400, "invalid_json"), false)
      else
        match handler update with
        | Except.error e => ((500, e), true)
        | Except.ok AdmissionResult.ignored => ((200, "ignored"), true)
        | Except.ok AdmissionResult.published => ((200, "accepted"), true)

/-- `app/worker.py` `pubsub_push`: the falsy-body rejection, then the push
handler (`handle_pubsub_push`, abstracted as the fallible `handler`). -/
def pubsub_push (body : Option Json)
    (handler : Json → Except String Unit) : (Nat × String) × Bool :=
  match body with
  | none => ((400, "invalid_json"), false)
  | some payload =>
    if !payload.truthy then ((400, "invalid_json"), false)
    else
      match handler payload with
      | Except.error e => ((500, e), true)
      | Except.ok _ => ((200, "ok"), true)

/-! ## Spec-side variants for the self-loop-guard claim -/

/-- Follows the spec's words (claim C9): the webhook admission filter with
the self-loop guard (reject when the sender id equals the configured bot
id) removed; every other check is as in `handle_update`. -/
def handle_update_no_self_guard (u : RawUpdate) (config : Config) :
    AdmissionResult :=
  match u.message with
  | none => AdmissionResult.ignored
  | some message =>
    let from_user := message.fromUser
    if (from_user.map (fun f => f.is_bot)).getD false then AdmissionResult.ignored
    else if from_user = none then AdmissionResult.ignored
    else
      let chat_id := message.chat.bind (fun c => c.id)
      let is_admin_dm := truthyOptInt config.admin_user_id
        && ((message.chat.bind (fun c => c.chat_type)) == some "private")
        && ((from_user.bind (fun f => f.id)) == config.admin_user_id)
      if chat_id ≠ some config.ingest_chat_id && !is_admin_dm then
        AdmissionResult.ignored
      else AdmissionResult.published

/-- Follows the spec's words (claim C9): the reply policy with the
self-loop guard removed; every other step is as in `_should_reply`. -/
def should_reply_no_self_guard (update : Update) (config : Config)
    (reply_chance : ℚ) (cooldown_seconds : Int) (env : Env) : Except Unit Bool :=
  if update.message.sender.is_bot then Except.ok false
  else if update.message.sender.id = none then Except.ok false
  else
    let text := update.message.text.getD ""
    if truthyOptStr config.bot_username
        && strContains text ("@" ++ config.bot_username.getD "") then Except.ok true
    else if strContains text "?" then Except.ok true
    else
      match env.get_last_reply_time with
      | Except.error e => Except.error e
      | Except.ok last_reply_time =>
        match last_reply_time with
        | some t =>
          if env.now - t < cooldown_seconds then Except.ok false
          else Except.ok (decide (env.rnd < reply_chance))
        | none => Except.ok (decide (env.rnd < reply_chance))

/-! # Theorems -/

/-- C1: for every update whose `update_id` is already recorded as
processed, `process_update` stops right after the dedup check with no side
effects at all — no `save_message`, no `save_reply`, no
`mark_update_processed`, no Telegram send — and no exception; a second
delivery of the same envelope therefore adds nothing to the effects of the
first. -/
theorem duplicate_update_is_noop (u : UpdatePayload) (config : Config)
    (env : Env) (h : env.is_update_processed = true) :
    process_update u config env = ([], false) := by
  simp [process_update, h]

/-- Witness for C1 at a concrete duplicate delivery. -/
theorem duplicate_update_is_noop_witness :
    process_update
      ⟨11, ⟨56, 1000, some "hello",
        some ⟨some 2, some "bob", some "Bob", false⟩,
        some ⟨some 123, some "group"⟩, []⟩⟩
      ⟨123, 123, "s", none, none, none⟩
      ⟨true, [], Except.ok none, fun _ => Except.ok [], 0, 0,
        fun _ => Except.ok "", true, true⟩
    = ([], false) :=
  duplicate_update_is_noop _ _ _ rfl

/-- C10: both HTTP endpoints reject a request whose body parses to a falsy
JSON value (`{}`, `null`, `0`, `false`, `""`, `[]`) with 400
`invalid_json` — exactly as they reject malformed JSON — and the admission
filter / queue-push handler is never invoked on such a body (webhook shown
with its shared secret matching, since the secret check runs first). -/
theorem falsy_json_rejected (config : Config) (j : Json)
    (handler1 : Json → Except String AdmissionResult)
    (handler2 : Json → Except String Unit)
    (h : j.truthy = false) :
    telegram_webhook config config.webhook_secret (some j) handler1
      = ((400, "invalid_json"), false)
    ∧ pubsub_push (some j) handler2 = ((400, "invalid_json"), false) := by
  constructor <;> simp [telegram_webhook, pubsub_push, h]

/-- Witness for C10 at the falsy body `{}`. -/
theorem falsy_json_rejected_witness :
    telegram_webhook ⟨123, 123, "sec", none, none, none⟩ "sec"
        (some (Json.obj [])) (fun _ => Except.ok AdmissionResult.ignored)
      = ((400, "invalid_json"), false)
    ∧ pubsub_push (some (Json.obj [])) (fun _ => Except.ok ())
      = ((400, "invalid_json"), false) :=
  falsy_json_rejected ⟨123, 123, "sec", none, none, none⟩ (Json.obj [])
    (fun _ => Except.ok AdmissionResult.ignored) (fun _ => Except.ok ()) rfl

/-- C9: when `bot_user_id` is not configured (`None`), the self-loop guard
is inactive — both the webhook admission filter and the reply policy behave
exactly as their variants with the sender-equals-self check removed, so no
message is ever rejected on those grounds, whatever the sender id. -/
theorem self_guard_inactive_when_unconfigured (u : RawUpdate) (upd : Update)
    (config : Config) (reply_chance : ℚ) (cooldown_seconds : Int) (env : Env)
    (h : config.bot_user_id = none) :
    handle_update u config = handle_update_no_self_guard u config
    ∧ _should_reply upd config reply_chance cooldown_seconds env
      = should_reply_no_self_guard upd config reply_chance cooldown_seconds env := by
  constructor
  · cases hm : u.message with
    | none => simp [handle_update, handle_update_no_self_guard, hm]
    | some m => simp [handle_update, handle_update_no_self_guard, hm, h, truthyOptInt]
  · simp [_should_reply, should_reply_no_self_guard, h, truthyOptInt]

/-- Witness for C9: an unconfigured bot id at a concrete update whose
sender id would have matched any candidate self id. -/
theorem self_guard_inactive_when_unconfigured_witness :
    handle_update
        ⟨3, some ⟨31, 0, some "hi", some ⟨some 999, none, none, false⟩,
          some ⟨some 123, some "group"⟩, []⟩⟩
        ⟨123, 123, "s", none, none, none⟩
      = handle_update_no_self_guard
        ⟨3, some ⟨31, 0, some "hi", some ⟨some 999, none, none, false⟩,
          some ⟨some 123, some "group"⟩, []⟩⟩
        ⟨123, 123, "s", none, none, none⟩
    ∧ _should_reply
        ⟨3, ⟨31, ⟨some 999, none, none, false⟩, some "hi", 0, []⟩⟩
        ⟨123, 123, "s", none, none, none⟩ (1/10) 300
        ⟨false, [], Except.ok none, fun _ => Except.ok [], 0, 0,
          fun _ => Except.ok "", true, true⟩
      = should_reply_no_self_guard
        ⟨3, ⟨31, ⟨some 999, none, none, false⟩, some "hi", 0, []⟩⟩
        ⟨123, 123, "s", none, none, none⟩ (1/10) 300
        ⟨false, [], Except.ok none, fun _ => Except.ok [], 0, 0,
          fun _ => Except.ok "", true, true⟩ :=
  self_guard_inactive_when_unconfigured _ _ _ _ _ _ rfl

/-- C8 counterexample: `extract_trace_id` is not case-insensitive in the
header name.  A mapping holding the header under the all-caps spelling is
not found (the code probes only the exact lower-case name and its
title-cased variant), so the claimed result `some "abc"` is not returned —
the function yields `none`. -/
theorem trace_header_not_case_insensitive :
    extract_trace_id [("X-CLOUD-TRACE-CONTEXT", "abc/def")] = none
    ∧ some "abc" ≠ (none : Option String) := by
  constructor
  · rfl
  · simp

/-- C8 (amended): `extract_trace_id` reads the header stored under the
exact lower-case name `x-cloud-trace-context`, falling back to its
title-cased spelling `X-Cloud-Trace-Context` (only those two
capitalizations); it takes the found value's segment before the first `/`,
strips surrounding whitespace, and returns `none` when both keys are
absent or the segment is empty after trimming. -/
theorem trace_header_lookup :
    (∀ headers v, headersGet headers TRACE_HEADER = some v → v ≠ "" →
      extract_trace_id headers =
        (if pyStrip (String.mk (v.toList.takeWhile (fun c => c ≠ '/'))) = ""
         then none
         else some (pyStrip (String.mk (v.toList.takeWhile (fun c => c ≠ '/'))))))
    ∧ (∀ headers, headersGet headers TRACE_HEADER = none →
        headersGet headers "X-Cloud-Trace-Context" = none →
        extract_trace_id headers = none)
    ∧ pyTitle TRACE_HEADER = "X-Cloud-Trace-Context" := by
  have htitle : pyTitle TRACE_HEADER = "X-Cloud-Trace-Context" := by decide
  refine ⟨?_, ?_, htitle⟩
  · intro headers v h1 h2
    simp [extract_trace_id, h1, pyOrStr, h2]
  · intro headers h1 h2
    simp [extract_trace_id, h1, htitle, h2, pyOrStr]

/-- Witness for C8's amended statement: the lower-case name is found and
the pre-slash segment is returned trimmed. -/
theorem trace_header_lookup_witness :
    extract_trace_id [("x-cloud-trace-context", " abc/def ")] = some "abc" := by
  have h := trace_header_lookup.1 [("x-cloud-trace-context", " abc/def ")]
    " abc/def " rfl (by decide)
  rw [h]
  decide

/-- C2 (code bug): the generation request ignores the runtime-configured
generation parameters.  With overrides set for `model_temperature`,
`max_tokens` and `system_prompt`, the POST payload `generate_reply` builds
is byte-identical to the payload built with no overrides at all: its
temperature and token cap are the compiled defaults and its system turn is
the hardcoded prompt — even though `process_update` placed the overridden
values into `AIContext.metadata` (which differs, and which `generate_reply`
never reads). -/
theorem generation_uses_compiled_defaults :
    openai_payload (build_ai_context ⟨123, 123, "s", none, none, none⟩
        [("model_temperature", RVal.rat (DEFAULT_MODEL_TEMPERATURE + 1)),
         ("max_tokens", RVal.int (DEFAULT_MAX_TOKENS + 1)),
         ("system_prompt", RVal.str "custom prompt")] [])
      = openai_payload (build_ai_context ⟨123, 123, "s", none, none, none⟩ [] [])
    ∧ (openai_payload (build_ai_context ⟨123, 123, "s", none, none, none⟩
        [("model_temperature", RVal.rat (DEFAULT_MODEL_TEMPERATURE + 1)),
         ("max_tokens", RVal.int (DEFAULT_MAX_TOKENS + 1)),
         ("system_prompt", RVal.str "custom prompt")] [])).temperature
      = DEFAULT_MODEL_TEMPERATURE
    ∧ (openai_payload (build_ai_context ⟨123, 123, "s", none, none, none⟩
        [("model_temperature", RVal.rat (DEFAULT_MODEL_TEMPERATURE + 1)),
         ("max_tokens", RVal.int (DEFAULT_MAX_TOKENS + 1)),
         ("system_prompt", RVal.str "custom prompt")] [])).max_tokens
      = DEFAULT_MAX_TOKENS
    ∧ (build_ai_context ⟨123, 123, "s", none, none, none⟩
        [("model_temperature", RVal.rat (DEFAULT_MODEL_TEMPERATURE + 1)),
         ("max_tokens", RVal.int (DEFAULT_MAX_TOKENS + 1)),
         ("system_prompt", RVal.str "custom prompt")] []).metadata
      = [("max_reply_sentences", RVal.int DEFAULT_MAX_REPLY_SENTENCES),
         ("model_temperature", RVal.rat (DEFAULT_MODEL_TEMPERATURE + 1)),
         ("max_tokens", RVal.int (DEFAULT_MAX_TOKENS + 1)),
         ("system_prompt", RVal.str "custom prompt")]
    ∧ DEFAULT_MODEL_TEMPERATURE + 1 ≠ DEFAULT_MODEL_TEMPERATURE
    ∧ DEFAULT_MAX_TOKENS + 1 ≠ DEFAULT_MAX_TOKENS
    ∧ RVal.str "custom prompt" ≠ RVal.str DEFAULT_SYSTEM_PROMPT := by
  refine ⟨rfl, rfl, rfl, rfl, ?_, ?_, ?_⟩
  · norm_num [DEFAULT_MODEL_TEMPERATURE]
  · norm_num [DEFAULT_MAX_TOKENS]
  · simp [DEFAULT_SYSTEM_PROMPT]

/-- C7 counterexample: a raising Telegram send on the admin-command path
does not propagate out of the per-update handler.  At a concrete admin DM
whose send raises (`send_ok = false`), `process_update` returns normally
(escape flag `false`) with the update marked processed — refuting the
claim that the exception propagates. -/
theorem admin_dispatch_failure_not_propagated :
    process_update
      ⟨7, ⟨70, 0, some "/help", some ⟨some 42, some "boss", none, false⟩,
        some ⟨some 9, some "private"⟩, []⟩⟩
      ⟨123, 123, "s", none, none, some 42⟩
      ⟨false, [], Except.ok none, fun _ => Except.ok [], 0, 0,
        fun _ => Except.ok "", false, true⟩
    = ([Effect.markProcessed 7], false) := by
  rfl

/-- C7 (amended): an exception raised on the admin-command path — a
raising Telegram send included — is caught inside `process_update` (it does
not propagate out of the per-update handler), and the update is marked
processed as the final action regardless. -/
theorem admin_path_marks_processed (u : UpdatePayload) (config : Config)
    (env : Env) (h1 : env.is_update_processed = false)
    (h2 : _is_admin_dm u.message config (_parse_update u).message.sender.id = true) :
    (process_update u config env).2 = false
    ∧ (process_update u config env).1.getLast?
      = some (Effect.markProcessed u.update_id) := by
  cases hh : _handle_admin_command (_parse_update u) u.message config
      env.runtime_config env with
  | ok p =>
    obtain ⟨efs, b⟩ := p
    have key : process_update u config env
        = (efs ++ [Effect.markProcessed u.update_id], false) := by
      have hid : (_parse_update u).update_id = u.update_id := rfl
      simp [process_update, h1, h2, hh, hid]
    rw [key]
    exact ⟨rfl, List.getLast?_concat _⟩
  | error efs =>
    have key : process_update u config env
        = (efs ++ [Effect.markProcessed u.update_id], false) := by
      have hid : (_parse_update u).update_id = u.update_id := rfl
      simp [process_update, h1, h2, hh, hid]
    rw [key]
    exact ⟨rfl, List.getLast?_concat _⟩

/-- Witness for C7's amended statement at a concrete admin DM whose send
succeeds. -/
theorem admin_path_marks_processed_witness :
    (process_update
      ⟨8, ⟨80, 0, some "/set_cooldown 10",
        some ⟨some 42, some "boss", none, false⟩,
        some ⟨some 9, some "private"⟩, []⟩⟩
      ⟨123, 123, "s", none, none, some 42⟩
      ⟨false, [], Except.ok none, fun _ => Except.ok [], 0, 0,
        fun _ => Except.ok "", true, true⟩).2 = false
    ∧ (process_update
      ⟨8, ⟨80, 0, some "/set_cooldown 10",
        some ⟨some 42, some "boss", none, false⟩,
        some ⟨some 9, some "private"⟩, []⟩⟩
      ⟨123, 123, "s", none, none, some 42⟩
      ⟨false, [], Except.ok none, fun _ => Except.ok [], 0, 0,
        fun _ => Except.ok "", true, true⟩).1.getLast?
      = some (Effect.markProcessed 8) :=
  admin_path_marks_processed _ _ _ rfl rfl

/-- Helper: when the cooldown read succeeds, the reply policy returns a
boolean instead of raising. -/
theorem should_reply_isOk (upd : Update) (config : Config) (reply_chance : ℚ)
    (cooldown_seconds : Int) (env : Env) (last : Option Int)
    (h : env.get_last_reply_time = Except.ok last) :
    ∃ b, _should_reply upd config reply_chance cooldown_seconds env
      = Except.ok b := by
  unfold _should_reply
  rw [h]
  dsimp only
  cases last with
  | none =>
    dsimp only
    split_ifs <;> exact ⟨_, rfl⟩
  | some t =>
    dsimp only
    split_ifs <;> exact ⟨_, rfl⟩

/-- C3 counterexample: not every exception in steps 6-9 is caught.  At a
concrete non-admin, non-duplicate update whose cooldown lookup
(`get_last_reply_time`, part of reply-policy evaluation, step 6) raises,
`process_update` propagates the exception (escape flag `true`) and the
update is never marked processed. -/
theorem policy_exception_escapes_unmarked :
    process_update
      ⟨5, ⟨55, 0, some "hello", some ⟨some 1, some "alice", none, false⟩,
        some ⟨some 123, some "group"⟩, []⟩⟩
      ⟨123, 123, "s", none, none, none⟩
      ⟨false, [], Except.error (), fun _ => Except.ok [], 0, 0,
        fun _ => Except.ok "hi", true, true⟩
    = ([Effect.saveMessage 123 55], true)
    ∧ Effect.markProcessed 5 ∉
      (process_update
        ⟨5, ⟨55, 0, some "hello", some ⟨some 1, some "alice", none, false⟩,
          some ⟨some 123, some "group"⟩, []⟩⟩
        ⟨123, 123, "s", none, none, none⟩
        ⟨false, [], Except.error (), fun _ => Except.ok [], 0, 0,
          fun _ => Except.ok "hi", true, true⟩).1 := by
  refine ⟨rfl, ?_⟩
  decide

/-- C3 (amended): the broad catch covers only the generation / dispatch /
reply-recording block.  For a non-admin, non-duplicate update whose storage
reads (cooldown lookup, history fetch) succeed, any exception from the
generation call, the Telegram send or the reply write is caught inside
`process_update` and the update is still marked processed; exceptions from
the reply-policy evaluation or the history fetch instead propagate without
marking (see the counterexample). -/
theorem reply_stage_exceptions_caught (u : UpdatePayload) (config : Config)
    (env : Env) (last : Option Int)
    (h1 : env.is_update_processed = false)
    (h2 : _is_admin_dm u.message config (_parse_update u).message.sender.id = false)
    (h3 : env.get_last_reply_time = Except.ok last)
    (h4 : ∀ n, ∃ l, env.get_latest_messages n = Except.ok l) :
    (process_update u config env).2 = false
    ∧ Effect.markProcessed u.update_id ∈ (process_update u config env).1 := by
  obtain ⟨hist, h5⟩ :=
    h4 (rcGetInt env.runtime_config "history_limit" DEFAULT_HISTORY_LIMIT)
  obtain ⟨b, h6⟩ := should_reply_isOk (_parse_update u) config
    (rcGetRat env.runtime_config "reply_chance" DEFAULT_REPLY_CHANCE)
    (rcGetInt env.runtime_config "cooldown_seconds" DEFAULT_COOLDOWN_SECONDS)
    env last h3
  have hid : (_parse_update u).update_id = u.update_id := rfl
  cases b with
  | false =>
    constructor <;> simp [process_update, h1, h2, h6, hid]
  | true =>
    cases hg : env.generate_reply_result
        (build_ai_context config env.runtime_config hist) with
    | error e =>
      constructor <;> simp [process_update, h1, h2, h6, h5, hg, hid]
    | ok reply =>
      by_cases hr : reply = ""
      · constructor <;> simp [process_update, h1, h2, h6, h5, hg, hr, hid]
      · by_cases hs : env.send_ok = true
        · by_cases hv : env.save_reply_ok = true
          · constructor <;>
              simp [process_update, h1, h2, h6, h5, hg, hr, hs, hv, hid]
          · constructor <;>
              simp [process_update, h1, h2, h6, h5, hg, hr, hs, hv, hid]
        · constructor <;> simp [process_update, h1, h2, h6, h5, hg, hr, hs, hid]

/-- Witness for C3's amended statement: a raising generation call at a
concrete non-admin update is caught and the update is marked processed. -/
theorem reply_stage_exceptions_caught_witness :
    (process_update
      ⟨6, ⟨66, 0, some "why?", some ⟨some 1, some "alice", none, false⟩,
        some ⟨some 123, some "group"⟩, []⟩⟩
      ⟨123, 123, "s", none, none, none⟩
      ⟨false, [], Except.ok none, fun _ => Except.ok [], 0, 0,
        fun _ => Except.error (), true, true⟩).2 = false
    ∧ Effect.markProcessed 6 ∈
      (process_update
        ⟨6, ⟨66, 0, some "why?", some ⟨some 1, some "alice", none, false⟩,
          some ⟨some 123, some "group"⟩, []⟩⟩
        ⟨123, 123, "s", none, none, none⟩
        ⟨false, [], Except.ok none, fun _ => Except.ok [], 0, 0,
          fun _ => Except.error (), true, true⟩).1 :=
  reply_stage_exceptions_caught _ _ _ none rfl rfl rfl
    (fun _ => ⟨[], rfl⟩)

/-- C4: `_should_reply` implements exactly the specified short-circuit
precedence.  When the cooldown read succeeds, it returns `true` iff the
sender is not flagged bot, has an id, does not carry the configured bot's
own id, and either the text contains the configured `@bot_username` or a
`?` (both overriding cooldown and the random draw), or else the cooldown
window has elapsed (when a last reply exists) and the uniform draw is
strictly below `reply_chance`. -/
theorem should_reply_precedence (upd : Update) (config : Config)
    (reply_chance : ℚ) (cooldown_seconds : Int) (env : Env) (last : Option Int)
    (h : env.get_last_reply_time = Except.ok last) :
    _should_reply upd config reply_chance cooldown_seconds env = Except.ok true
      ↔ (upd.message.sender.is_bot = false
        ∧ upd.message.sender.id ≠ none
        ∧ ¬(truthyOptInt config.bot_user_id = true
            ∧ upd.message.sender.id = config.bot_user_id)
        ∧ ((truthyOptStr config.bot_username = true
              ∧ strContains (upd.message.text.getD "")
                  ("@" ++ config.bot_username.getD "") = true)
           ∨ strContains (upd.message.text.getD "") "?" = true
           ∨ ((∀ t, last = some t → cooldown_seconds ≤ env.now - t)
              ∧ env.rnd < reply_chance))) := by
  have hmain : _should_reply upd config reply_chance cooldown_seconds env =
      (if upd.message.sender.is_bot then Except.ok false
       else if upd.message.sender.id = none then Except.ok false
       else if truthyOptInt config.bot_user_id
           && upd.message.sender.id == config.bot_user_id then Except.ok false
       else if truthyOptStr config.bot_username
           && strContains (upd.message.text.getD "")
               ("@" ++ config.bot_username.getD "") then Except.ok true
       else if strContains (upd.message.text.getD "") "?" then Except.ok true
       else match last with
         | some t =>
           if env.now - t < cooldown_seconds then Except.ok false
           else Except.ok (decide (env.rnd < reply_chance))
         | none => Except.ok (decide (env.rnd < reply_chance))) := by
    unfold _should_reply
    rw [h]
  rw [hmain]
  by_cases h1 : upd.message.sender.is_bot = true
  · simp [h1]
  · rw [Bool.not_eq_true] at h1
    by_cases h2 : upd.message.sender.id = none
    · simp [h1, h2]
    · by_cases h3 : (truthyOptInt config.bot_user_id
          && (upd.message.sender.id == config.bot_user_id)) = true
      · have h3c := h3
        rw [Bool.and_eq_true, beq_iff_eq] at h3c
        simp [h1, h2, h3, h3c.1, h3c.2]
      · have h3p : ¬(truthyOptInt config.bot_user_id = true
            ∧ upd.message.sender.id = config.bot_user_id) := by
          intro hc
          exact h3 (by rw [Bool.and_eq_true, beq_iff_eq]; exact hc)
        by_cases h4 : (truthyOptStr config.bot_username
            && strContains (upd.message.text.getD "")
                ("@" ++ config.bot_username.getD "")) = true
        · have h4c := h4
          rw [Bool.and_eq_true] at h4c
          simp [h1, h2, h3, h4, h4c.1, h4c.2, h3p]
        · have h4p : ¬(truthyOptStr config.bot_username = true
              ∧ strContains (upd.message.text.getD "")
                  ("@" ++ config.bot_username.getD "") = true) := by
            intro hc
            exact h4 (by rw [Bool.and_eq_true]; exact hc)
          by_cases h5 : strContains (upd.message.text.getD "") "?" = true
          · simp [h1, h2, h3, h4, h5, h3p]
          · cases last with
            | none =>
              simp [h1, h2, h3, h4, h5, h3p, h4p, decide_eq_true_eq]
            | some t =>
              by_cases h6 : env.now - t < cooldown_seconds
              · have h6p : ¬(cooldown_seconds ≤ env.now - t) := not_le.mpr h6
                simp [h1, h2, h3, h4, h5, h3p, h4p, h6, h6p]
              · have h6p : cooldown_seconds ≤ env.now - t := not_lt.mp h6
                simp [h1, h2, h3, h4, h5, h3p, h4p, h6, h6p,
                  decide_eq_true_eq]

/-- Witness for C4: a question-marked message replies even with the random
draw forced to 1 and the cooldown window still open. -/
theorem should_reply_precedence_witness :
    _should_reply
      ⟨4, ⟨44, ⟨some 1, some "alice", none, false⟩, some "up?", 0, []⟩⟩
      ⟨123, 123, "s", none, none, none⟩ (1/10) 1000000
      ⟨false, [], Except.ok (some 0), fun _ => Except.ok [], 1, 1,
        fun _ => Except.ok "", true, true⟩
    = Except.ok true := by
  have h := should_reply_precedence
    ⟨4, ⟨44, ⟨some 1, some "alice", none, false⟩, some "up?", 0, []⟩⟩
    ⟨123, 123, "s", none, none, none⟩ (1/10) 1000000
    ⟨false, [], Except.ok (some 0), fun _ => Except.ok [], 1, 1,
      fun _ => Except.ok "", true, true⟩ (some 0) rfl
  exact h.mpr (by refine ⟨rfl, by simp, by simp [truthyOptInt], ?_⟩; right; left; decide)

/-- Helper: the admin `reply` closure performs exactly one send when the
payload carries a truthy chat id and the send succeeds. -/
theorem adminReply_sends (message_payload : MessagePayload) (env : Env)
    (msg : String) (cid : Int)
    (hchat : message_payload.chat.bind (fun c => c.id) = some cid)
    (hcid : cid ≠ 0) (hsend : env.send_ok = true) :
    adminReply message_payload env msg
      = Except.ok [Effect.sendMessage cid msg] := by
  simp [adminReply, hchat, truthyOptInt, hcid, hsend]

/-- C6: for every admin `set_<field>` command, a failing argument (one the
field's parser rejects or that is out of the field's range) produces
exactly the field-specific validation send and no runtime-config write,
while a passing argument produces exactly the save of the single key merged
over the existing runtime config followed by the confirmation send. -/
theorem admin_set_validation (upd : Update) (message_payload : MessagePayload)
    (config : Config) (rc : RC) (env : Env) (command args0 : String) (cid : Int)
    (hx : _extract_command (upd.message.text.getD "") config.bot_username
      = some (command, args0))
    (hhelp : command ≠ "help") (hcmds : command ≠ "commands")
    (hget : command ≠ "get_config") (hreset : command ≠ "reset_config")
    (hchat : message_payload.chat.bind (fun c => c.id) = some cid)
    (hcid : cid ≠ 0) (hsend : env.send_ok = true) :
    (∀ msg, setCommandOutcome command (pyStrip args0) = SetOutcome.invalid msg →
      _handle_admin_command upd message_payload config rc env
        = Except.ok ([Effect.sendMessage cid msg], true))
    ∧ (∀ key v,
        setCommandOutcome command (pyStrip args0) = SetOutcome.valid key v →
      _handle_admin_command upd message_payload config rc env
        = Except.ok ([Effect.saveRuntimeConfig (rcSet rc key v),
            Effect.sendMessage cid "Updated runtime config."], true)) := by
  have hreply := adminReply_sends message_payload env
  constructor
  · intro msg hmsg
    simp [_handle_admin_command, hx, hhelp, hcmds, hget, hreset, hmsg,
      hreply _ cid hchat hcid hsend, Except.map]
  · intro key v hkv
    simp [_handle_admin_command, hx, hhelp, hcmds, hget, hreset, hkv,
      hreply _ cid hchat hcid hsend, Except.map]

/-- Witness for C6: `set_reply_chance 1.5` is rejected (out of [0,1]) with
the field's validation message and no write; `set_reply_chance 0.5` is
accepted and saves exactly `reply_chance = 1/2` merged over the empty
runtime config. -/
theorem admin_set_validation_witness :
    _handle_admin_command
      ⟨21, ⟨210, ⟨some 42, some "boss", none, false⟩,
        some "/set_reply_chance 1.5", 0, []⟩⟩
      ⟨210, 0, some "/set_reply_chance 1.5",
        some ⟨some 42, some "boss", none, false⟩,
        some ⟨some 9, some "private"⟩, []⟩
      ⟨123, 123, "s", none, none, some 42⟩ []
      ⟨false, [], Except.ok none, fun _ => Except.ok [], 0, 0,
        fun _ => Except.ok "", true, true⟩
      = Except.ok ([Effect.sendMessage 9
          "Invalid reply_chance. Expected a number between 0 and 1."], true)
    ∧ _handle_admin_command
      ⟨22, ⟨220, ⟨some 42, some "boss", none, false⟩,
        some "/set_reply_chance 0.5", 0, []⟩⟩
      ⟨220, 0, some "/set_reply_chance 0.5",
        some ⟨some 42, some "boss", none, false⟩,
        some ⟨some 9, some "private"⟩, []⟩
      ⟨123, 123, "s", none, none, some 42⟩ []
      ⟨false, [], Except.ok none, fun _ => Except.ok [], 0, 0,
        fun _ => Except.ok "", true, true⟩
      = Except.ok ([Effect.saveRuntimeConfig
            (rcSet [] "reply_chance" (RVal.rat (1/2))),
          Effect.sendMessage 9 "Updated runtime config."], true) := by
  have hp15 : _parse_float "1.5" = some (3/2 : ℚ) := by
    have e1 : digitsVal ['1'] = 1 := rfl
    have e5 : digitsVal ['5'] = 5 := rfl
    show some ((digitsVal ['1'] : ℚ)
        + (digitsVal ['5'] : ℚ) / (10 : ℚ) ^ (['5'] : List Char).length)
      = some (3/2 : ℚ)
    rw [e1, e5]
    norm_num
  have hp05 : _parse_float "0.5" = some (1/2 : ℚ) := by
    have e0 : digitsVal ['0'] = 0 := rfl
    have e5 : digitsVal ['5'] = 5 := rfl
    show some ((digitsVal ['0'] : ℚ)
        + (digitsVal ['5'] : ℚ) / (10 : ℚ) ^ (['5'] : List Char).length)
      = some (1/2 : ℚ)
    rw [e0, e5]
    norm_num
  have hout15 : setCommandOutcome "set_reply_chance" "1.5"
      = SetOutcome.invalid
          "Invalid reply_chance. Expected a number between 0 and 1." := by
    norm_num [setCommandOutcome, hp15]
  have hout05 : setCommandOutcome "set_reply_chance" "0.5"
      = SetOutcome.valid "reply_chance" (RVal.rat (1/2)) := by
    norm_num [setCommandOutcome, hp05]
  constructor
  · exact (admin_set_validation
      ⟨21, ⟨210, ⟨some 42, some "boss", none, false⟩,
        some "/set_reply_chance 1.5", 0, []⟩⟩
      ⟨210, 0, some "/set_reply_chance 1.5",
        some ⟨some 42, some "boss", none, false⟩,
        some ⟨some 9, some "private"⟩, []⟩
      ⟨123, 123, "s", none, none, some 42⟩ []
      ⟨false, [], Except.ok none, fun _ => Except.ok [], 0, 0,
        fun _ => Except.ok "", true, true⟩
      "set_reply_chance" "1.5" 9 rfl
      (by decide) (by decide) (by decide) (by decide) rfl (by decide) rfl).1
      _ hout15
  · exact (admin_set_validation
      ⟨22, ⟨220, ⟨some 42, some "boss", none, false⟩,
        some "/set_reply_chance 0.5", 0, []⟩⟩
      ⟨220, 0, some "/set_reply_chance 0.5",
        some ⟨some 42, some "boss", none, false⟩,
        some ⟨some 9, some "private"⟩, []⟩
      ⟨123, 123, "s", none, none, some 42⟩ []
      ⟨false, [], Except.ok none, fun _ => Except.ok [], 0, 0,
        fun _ => Except.ok "", true, true⟩
      "set_reply_chance" "0.5" 9 rfl
      (by decide) (by decide) (by decide) (by decide) rfl (by decide) rfl).2
      _ _ hout05

/-- Helper: `topCommonWords` returns `min 5 #distinct` distinct tokens of
the input, and every token left out occurs no more often than any token
kept. -/
theorem topCommonWords_facts (words : List String) :
    (topCommonWords words).length = min 5 words.dedup.length
    ∧ (topCommonWords words).Nodup
    ∧ (∀ w ∈ topCommonWords words, w ∈ words)
    ∧ (∀ y ∈ words, y ∉ topCommonWords words →
        ∀ x ∈ topCommonWords words, words.count y ≤ words.count x) := by
  haveI inst1 : IsTotal String (fun a b => words.count b ≤ words.count a) :=
    ⟨fun _ _ => le_total _ _⟩
  haveI inst2 : IsTrans String (fun a b => words.count b ≤ words.count a) :=
    ⟨fun _ _ _ hab hbc => le_trans hbc hab⟩
  have hsorted := List.sorted_insertionSort
    (fun a b => words.count b ≤ words.count a) words.dedup
  have hperm := List.perm_insertionSort
    (fun a b => words.count b ≤ words.count a) words.dedup
  refine ⟨?_, ?_, ?_, ?_⟩
  · rw [topCommonWords, List.length_take, List.length_insertionSort]
  · exact (hperm.nodup_iff.mpr (List.nodup_dedup words)).sublist
      (List.take_sublist 5 _)
  · intro w hw
    exact List.mem_dedup.mp
      ((List.mem_insertionSort _).mp (List.mem_of_mem_take hw))
  · intro y hy hynot x hx
    have hy2 : y ∈ List.insertionSort
        (fun a b => words.count b ≤ words.count a) words.dedup :=
      (List.mem_insertionSort _).mpr (List.mem_dedup.mpr hy)
    rw [← List.take_append_drop 5 (List.insertionSort
      (fun a b => words.count b ≤ words.count a) words.dedup)] at hy2
    rcases List.mem_append.mp hy2 with hin | hdrop
    · exact absurd hin hynot
    · exact hsorted.rel_of_mem_take_of_mem_drop hx hdrop

/-- C5: `_build_style_profile` matches the spec's reference definition.
With no non-empty texts it returns the zeroed profile; otherwise
`average_length` is the mean character count of the non-empty texts,
the emoji ratio is the count of characters in U+1F300-U+1FAFF divided by
`max(total character count, 1)`, `common_words` is `min 5 #distinct`
distinct tokens of maximal frequency among the lower-cased `\w+` tokens of
all texts (any omitted token is no more frequent than any kept one), and
`topics` is always empty. -/
theorem style_profile_spec (messages : List StoredMessage) :
    (nonEmptyTexts messages = [] →
      _build_style_profile messages
        = { average_length := 0, emoji_rate := 0, common_words := [],
            topics := [] })
    ∧ (nonEmptyTexts messages ≠ [] →
      ((_build_style_profile messages).average_length
          = (((nonEmptyTexts messages).map String.length).sum : ℚ)
            / ((nonEmptyTexts messages).length : ℚ)
        ∧ (_build_style_profile messages).emoji_rate
          = (((nonEmptyTexts messages).map
                (fun t => (t.toList.filter isEmojiChar).length)).sum : ℚ)
            / ((max ((nonEmptyTexts messages).map String.length).sum 1 : ℕ) : ℚ)
        ∧ (_build_style_profile messages).topics = []
        ∧ (_build_style_profile messages).common_words.length
          = min 5 (styleTokens (nonEmptyTexts messages)).dedup.length
        ∧ (_build_style_profile messages).common_words.Nodup
        ∧ (∀ w ∈ (_build_style_profile messages).common_words,
            w ∈ styleTokens (nonEmptyTexts messages))
        ∧ (∀ y ∈ styleTokens (nonEmptyTexts messages),
            y ∉ (_build_style_profile messages).common_words →
            ∀ x ∈ (_build_style_profile messages).common_words,
              (styleTokens (nonEmptyTexts messages)).count y
                ≤ (styleTokens (nonEmptyTexts messages)).count x))) := by
  constructor
  · intro h
    simp [_build_style_profile, h]
  · intro h
    obtain ⟨hlen, hnodup, hmem, hmax⟩ :=
      topCommonWords_facts (styleTokens (nonEmptyTexts messages))
    have hbuild : _build_style_profile messages
        = { average_length :=
              (((nonEmptyTexts messages).map String.length).sum : ℚ)
                / ((nonEmptyTexts messages).length : ℚ)
            emoji_rate :=
              (((nonEmptyTexts messages).map
                  (fun t => (t.toList.filter isEmojiChar).length)).sum : ℚ)
                / ((max ((nonEmptyTexts messages).map String.length).sum 1 : ℕ) : ℚ)
            common_words := topCommonWords (styleTokens (nonEmptyTexts messages))
            topics := [] } := by
      simp only [_build_style_profile]
      rw [if_neg h]
    rw [hbuild]
    exact ⟨rfl, rfl, rfl, hlen, hnodup, hmem, hmax⟩

/-- Witness for C5: the empty history yields the zero profile, and a
single 100-character text yields `average_length = 100`. -/
theorem style_profile_spec_witness :
    _build_style_profile []
      = { average_length := 0, emoji_rate := 0, common_words := [],
          topics := [] }
    ∧ (_build_style_profile
        [⟨some 1, some (String.mk (List.replicate 100 'a')), 0, none, none⟩]).average_length
      = 100 := by
  constructor
  · exact (style_profile_spec []).1 rfl
  · have h := ((style_profile_spec
      [⟨some 1, some (String.mk (List.replicate 100 'a')), 0, none, none⟩]).2
      (by decide)).1
    rw [h]
    have e1 : ((nonEmptyTexts
        [⟨some 1, some (String.mk (List.replicate 100 'a')), 0, none, none⟩]).map
          String.length).sum = 100 := rfl
    have e2 : (nonEmptyTexts
        [⟨some 1, some (String.mk (List.replicate 100 'a')), 0, none, none⟩]).length
        = 1 := rfl
    rw [e1, e2]
    norm_num

end App
